import Mathlib

set_option maxRecDepth 10000

/-!
Verification of the `ha0min/shortener` URL-shortening worker.

The development shallowly embeds the relevant source functions:

* the Cloudflare KV namespace `URL_SHORTENER` as an association list from
  string keys to entries (a stored value together with the optional
  `expirationTtl` passed to `put`);
* `acquireLock` / `releaseLock` and `generateShortCode` from `utils.ts`;
* `logAnalytics` from `utils.ts` (the version writing only `urlId` and
  `shortCode` blobs);
* the `POST /api/shorten`, `GET /:shortCode` and
  `GET /api/analytics/overview` handlers from `index.ts`.

A stored value is modelled by `StoreValue`: `.str s` stands for the plain
string `s`, and `.record d` stands for the string `JSON.stringify(d)` for a
link record `d : KVData` (such a string is nonempty, hence truthy, and
`JSON.parse` recovers `d` from it).  JavaScript truthiness of a value read
from the store is `jsTruthy`.  Randomness (`nanoid()`, `crypto.getRandomValues`)
is passed in as explicit parameters.
-/

/-- The payload stored at a `link:{shortCode}` key (`KVData` in `type.ts`):
`originalUrl`, optional `expiration` (Unix timestamp), optional
`description`, and the link identity `urlId`. -/
structure KVData where
  originalUrl : String
  expiration : Option Int
  description : Option String
  urlId : String
  deriving DecidableEq

/-- A value held by the KV store: either a plain string or the
JSON-serialisation of a `KVData` link record. -/
inductive StoreValue where
  | str (s : String)
  | record (d : KVData)
  deriving DecidableEq

/-- Escapes quotes and backslashes, as `JSON.stringify` does for the
string contents appearing in a link record. -/
def jsonEscape (s : String) : String :=
  s.data.foldl
    (fun acc c =>
      acc ++ (if c = '"' then "\\\"" else if c = '\\' then "\\\\" else String.singleton c))
    ""

/-- The string `JSON.stringify(kvData)` produced by the create handler for a
link record (fields in insertion order: `originalUrl`, `description`,
`urlId`, then `expiration` when present). -/
def encodeKVData (d : KVData) : String :=
  "\x7b\"originalUrl\":\"" ++ jsonEscape d.originalUrl ++ "\"" ++
    (match d.description with
      | some s => ",\"description\":\"" ++ jsonEscape s ++ "\""
      | none => "") ++
    ",\"urlId\":\"" ++ jsonEscape d.urlId ++ "\"" ++
    (match d.expiration with
      | some e => ",\"expiration\":" ++ toString e
      | none => "") ++ "\x7d"

/-- The raw string a `get` of this value returns. -/
def StoreValue.asString : StoreValue → String
  | .str s => s
  | .record d => encodeKVData d

/-- JavaScript truthiness of a string read from the store: `null` and the
empty string are falsy; a serialised record is a nonempty string, hence
truthy. -/
def jsTruthy : Option StoreValue → Bool
  | none => false
  | some (.str s) => !(s == "")
  | some (.record _) => true

/-- One KV entry: the stored value and the `expirationTtl` option passed to
`put` (in seconds), `none` when `put` was called without a TTL. -/
structure Entry where
  val : StoreValue
  ttl : Option Nat
  deriving DecidableEq

/-- The KV namespace, as an association list with unique keys. -/
def KVStore := List (String × Entry)

instance : DecidableEq KVStore := inferInstanceAs (DecidableEq (List (String × Entry)))

/-- `get`: the first (only) entry stored at `k`. -/
def kvGet : KVStore → String → Option Entry
  | [], _ => none
  | (k', e) :: rest, k => if k' = k then some e else kvGet rest k

/-- `put`: overwrite the entry at `k`, or append a new one. -/
def kvPut : KVStore → String → Entry → KVStore
  | [], k, e => [(k, e)]
  | (k', e') :: rest, k, e =>
      if k' = k then (k, e) :: rest else (k', e') :: kvPut rest k e

/-- `delete`: remove the entry at `k`. -/
def kvDel : KVStore → String → KVStore
  | [], _ => []
  | (k', e) :: rest, k => if k' = k then kvDel rest k else (k', e) :: kvDel rest k

theorem kvGet_kvPut_same (st : KVStore) (k : String) (e : Entry) :
    kvGet (kvPut st k e) k = some e := by
  induction st with
  | nil => simp [kvPut, kvGet]
  | cons hd tl ih =>
      by_cases h : hd.1 = k
      · simp [kvPut, kvGet, h]
      · simp [kvPut, kvGet, h, ih]

theorem kvGet_kvPut_other (st : KVStore) (k k' : String) (e : Entry) (h : k' ≠ k) :
    kvGet (kvPut st k e) k' = kvGet st k' := by
  induction st with
  | nil => simp [kvPut, kvGet, Ne.symm h]
  | cons hd tl ih =>
      by_cases hk : hd.1 = k
      · simp [kvPut, kvGet, hk, Ne.symm h]
      · by_cases hk' : hd.1 = k'
        · simp [kvPut, kvGet, hk, hk', h]
        · simp [kvPut, kvGet, hk, hk', ih]

theorem kvGet_kvDel_same (st : KVStore) (k : String) :
    kvGet (kvDel st k) k = none := by
  induction st with
  | nil => simp [kvDel, kvGet]
  | cons hd tl ih =>
      by_cases h : hd.1 = k
      · simpa [kvDel, kvGet, h] using ih
      · simpa [kvDel, kvGet, h] using ih

theorem kvGet_kvDel_other (st : KVStore) (k k' : String) (h : k' ≠ k) :
    kvGet (kvDel st k) k' = kvGet st k' := by
  induction st with
  | nil => simp [kvDel, kvGet]
  | cons hd tl ih =>
      by_cases hk : hd.1 = k
      · simpa [kvDel, kvGet, hk, Ne.symm h] using ih
      · by_cases hk' : hd.1 = k'
        · simp [kvDel, kvGet, hk, hk', h]
        · simpa [kvDel, kvGet, hk, hk'] using ih

/-! ### Key namespaces

The handlers address the store only through the namespaced keys
`link:{shortCode}`, `urlId:{originalUrl}`, `lock:{originalUrl}` and
`session:{sessionId}`. -/

def linkKey (shortCode : String) : String := "link:" ++ shortCode

def urlIdKey (originalUrl : String) : String := "urlId:" ++ originalUrl

def lockKey (originalUrl : String) : String := "lock:" ++ originalUrl

theorem lockKey_ne_linkKey (u c : String) : lockKey u ≠ linkKey c := by
  intro h
  have h2 := congrArg String.data h
  rw [lockKey, linkKey, String.data_append, String.data_append] at h2
  simp at h2

theorem lockKey_ne_urlIdKey (u u' : String) : lockKey u ≠ urlIdKey u' := by
  intro h
  have h2 := congrArg String.data h
  rw [lockKey, urlIdKey, String.data_append, String.data_append] at h2
  simp at h2

theorem linkKey_ne_urlIdKey (c u : String) : linkKey c ≠ urlIdKey u := by
  intro h
  have h2 := congrArg String.data h
  rw [linkKey, urlIdKey, String.data_append, String.data_append] at h2
  simp at h2

theorem linkKey_inj (a b : String) (h : linkKey a = linkKey b) : a = b := by
  have h2 := congrArg String.data h
  rw [linkKey, linkKey, String.data_append, String.data_append] at h2
  simp at h2
  exact String.ext h2

/-! ### `generateShortCode` (utils.ts)

```ts
function generateShortCode(length: number = 4): string {
  const characters = "ABCDEFGHJKLMNPQRSTUVWXYZabcdefghijkmnopqrstuvwxyz23456789";
  let result = "";
  const randomValues = new Uint8Array(length);
  crypto.getRandomValues(randomValues);
  for (let i = 0; i < length; i++) {
    result += characters.charAt(randomValues[i] % characters.length);
  }
  return result;
}
```

The random bytes drawn by `crypto.getRandomValues` are passed in explicitly
as `randomValues : List Nat` (each in `[0, 256)`). -/

/-- The 57-character unambiguous alphabet of `generateShortCode`. -/
def shortCodeChars : List Char :=
  "ABCDEFGHJKLMNPQRSTUVWXYZabcdefghijkmnopqrstuvwxyz23456789".data

/-- `characters.charAt(b % characters.length)` for one random byte `b`. -/
def codeCharOfByte (b : Nat) : Char :=
  shortCodeChars.getD (b % shortCodeChars.length) ' '

/-- `generateShortCode`, with the bytes filled in by
`crypto.getRandomValues` made explicit. -/
def generateShortCode (randomValues : List Nat) : String :=
  ⟨randomValues.map codeCharOfByte⟩

/-! ### `logAnalytics` (utils.ts)

```ts
export async function logAnalytics(c: any, shortCode: string, urlId: string) {
  console.log(`...`);
  c.env.URL_CLICK_TRACKING.writeDataPoint({
    "blobs": [String(urlId), String(shortCode)],
    "indexes": [String(urlId)],
  });
}
```

The Workers Analytics Engine dataset is modelled as the list of data points
written; the request context `c` is modelled by the optional Cloudflare
geolocation properties `cf` that a request may or may not carry (the
function reads none of them). -/

/-- The geographic/contextual request properties (`request.cf`). -/
structure CfProps where
  city : String
  country : String
  continent : String
  region : String
  regionCode : String
  timezone : String
  deriving DecidableEq

/-- One point written to the analytics dataset. -/
structure DataPoint where
  blobs : List String
  indexes : List String
  deriving DecidableEq

/-- `logAnalytics`: the data points it writes for one call.  It writes
exactly one point, with blobs `[urlId, shortCode]` and index `[urlId]`,
reading nothing from the request context `cf`. -/
def logAnalytics (cf : Option CfProps) (shortCode urlId : String) : List DataPoint :=
  let _ := cf
  [{ blobs := [urlId, shortCode], indexes := [urlId] }]

/-! ### `acquireLock` / `releaseLock` (utils.ts)

```ts
export async function acquireLock(c: any, url: string): Promise<string | null> {
  const lockId = nanoid();
  try {
    await c.env.URL_SHORTENER.put(`lock:${url}`, lockId, { expirationTtl: 60 });
    return lockId;
  } catch (error) { console.error(...); return null; }
}

export async function releaseLock(c: any, url: string, lockId: string) {
  try {
    const currentLockId = await c.env.URL_SHORTENER.get(`lock:${url}`);
    if (currentLockId === lockId) {
      await c.env.URL_SHORTENER.delete(`lock:${url}`);
    }
  } catch (error) { console.error("Error releasing lock:", error); }
}
```

Store calls can throw; a throw is injected through explicit failure flags.
Both functions catch every error (`acquireLock` returns `null`,
`releaseLock` logs and returns), so neither ever propagates an error: their
embeddings are total functions. -/

/-- `acquireLock`: writes `lock:{url} := lockId` with a 60-second TTL and
returns the token, or returns `none` leaving the store unchanged when the
`put` throws (`putFails`). -/
def acquireLock (st : KVStore) (putFails : Bool) (url lockId : String) :
    Option String × KVStore :=
  if putFails then (none, st)
  else (some lockId, kvPut st (lockKey url) { val := .str lockId, ttl := some 60 })

/-- `releaseLock` with failure injection: if the `get` throws, the `catch`
swallows it and the store is untouched; otherwise the key is deleted only
when the stored value is exactly the caller's token (a throwing `delete`
also leaves the store untouched).  The return type `KVStore` (no error
case) reflects that no error ever escapes the `try/catch`. -/
def releaseLockF (st : KVStore) (getFails delFails : Bool) (url lockId : String) :
    KVStore :=
  if getFails then st
  else
    match kvGet st (lockKey url) with
    | none => st
    | some e =>
        if e.val.asString = lockId then
          (if delFails then st else kvDel st (lockKey url))
        else st

/-- `releaseLock` on a non-throwing store. -/
def releaseLock (st : KVStore) (url lockId : String) : KVStore :=
  releaseLockF st false false url lockId

/-! ### `POST /api/shorten` (index.ts, lines 797-891)

```ts
app.post("/api/shorten", async (c) => {
  const body: ShortenRequest = await c.req.json();
  const { originalUrl, shortCode = generateShortCode(), expiration = -1, description = "" } = body;
  const lockId = await acquireLock(c, originalUrl);
  if (!lockId) { return c.json({ success:false, message:"Server is busy, please try again" }, 429); }
  try {
    const existingUrl = await c.env.URL_SHORTENER.get("link:" + shortCode);
    if (existingUrl) { return c.json({ success:false, message:"Short code already exists" }, 400); }
    let urlId = await c.env.URL_SHORTENER.get(`urlId:${originalUrl}`);
    if (!urlId) { urlId = nanoid(); await c.env.URL_SHORTENER.put(`urlId:${originalUrl}`, urlId); }
    const kvData: KVData = { originalUrl, description, urlId };
    if (expiration !== -1) { kvData.expiration = expiration; }
    const shortUrl = `${new URL(c.req.url).origin}/${shortCode}`;
    await c.env.URL_SHORTENER.put(`link:${shortCode}`, JSON.stringify(kvData));
    return c.json({ shortUrl, originalUrl, success: true }, 201);
  } catch (error) {
    return c.json({ success:false, message:"Failed to store shortened URL" }, 500);
  } finally {
    await releaseLock(c, originalUrl, lockId);
  }
});
```

The randomness is passed explicitly: `generatedCode` is the value
`generateShortCode()` would produce, `freshUrlId` and `lockId` the two
`nanoid()` draws.  The store operations inside the `try` block are
modelled as non-throwing (no claim exercises the `catch` → 500 path);
`acquireLock`'s failure branch is kept since the handler checks it. -/

/-- The body passed to `c.json` by the shorten handler (`ShortenResponse`
in `type.ts`; every field optional, absent fields are omitted from the
JSON). -/
structure ShortenResponse where
  shortUrl : Option String
  originalUrl : Option String
  success : Option Bool
  message : Option String
  deriving DecidableEq

/-- Status, response body and final store of one `POST /api/shorten`. -/
structure ShortenResult where
  status : Nat
  body : ShortenResponse
  store : KVStore
  deriving DecidableEq

/-- The `POST /api/shorten` handler. -/
def shorten (st : KVStore) (lockPutFails : Bool) (originalUrl : String)
    (shortCodeOpt : Option String) (expirationOpt : Option Int)
    (descriptionOpt : Option String)
    (generatedCode freshUrlId lockId origin : String) : ShortenResult :=
  let shortCode := shortCodeOpt.getD generatedCode
  let expiration := expirationOpt.getD (-1)
  let description := descriptionOpt.getD ""
  match acquireLock st lockPutFails originalUrl lockId with
  | (none, st0) =>
      { status := 429,
        body := { shortUrl := none, originalUrl := none, success := some false,
                  message := some "Server is busy, please try again" },
        store := st0 }
  | (some lid, st1) =>
      let existingUrl := (kvGet st1 (linkKey shortCode)).map (·.val)
      if jsTruthy existingUrl then
        { status := 400,
          body := { shortUrl := none, originalUrl := none, success := some false,
                    message := some "Short code already exists" },
          store := releaseLock st1 originalUrl lid }
      else
        let urlIdRead := (kvGet st1 (urlIdKey originalUrl)).map (·.val)
        let urlId :=
          if jsTruthy urlIdRead then (urlIdRead.getD (.str "")).asString
          else freshUrlId
        let st2 :=
          if jsTruthy urlIdRead then st1
          else kvPut st1 (urlIdKey originalUrl) { val := .str freshUrlId, ttl := none }
        let kvData : KVData :=
          { originalUrl := originalUrl,
            expiration := if expiration ≠ -1 then some expiration else none,
            description := some description,
            urlId := urlId }
        let shortUrl := origin ++ "/" ++ shortCode
        let st3 := kvPut st2 (linkKey shortCode) { val := .record kvData, ttl := none }
        { status := 201,
          body := { shortUrl := some shortUrl, originalUrl := some originalUrl,
                    success := some true, message := none },
          store := releaseLock st3 originalUrl lid }

/-! ### `GET /:shortCode` (index.ts, lines 1114-1133)

```ts
app.get("/:shortCode", async (c) => {
  const shortCode = c.req.param("shortCode");
  const urlData = await c.env.URL_SHORTENER.get("link:" + shortCode);
  if (!urlData) { return c.notFound(); }
  const { originalUrl, expiration, urlId }: KVData = JSON.parse(urlData);
  if (expiration && Date.now() > expiration) {
    await c.env.URL_SHORTENER.delete("link:" + shortCode);
    return c.notFound();
  }
  await logAnalytics(c, shortCode, urlId);
  return c.redirect(originalUrl);
});
```

`Date.now()` is the explicit parameter `now`; the request's optional
geolocation properties are `cf`. -/

/-- Outcome of one `GET /:shortCode`: 404, a redirect (with the analytics
points written), or an uncaught `JSON.parse` exception on a stored value
that is not a serialised record. -/
inductive RedirectResult where
  | notFound (store : KVStore)
  | redirected (location : String) (store : KVStore) (events : List DataPoint)
  | thrown (store : KVStore)
  deriving DecidableEq

/-- The `GET /:shortCode` handler. -/
def redirect (st : KVStore) (shortCode : String) (now : Int) (cf : Option CfProps) :
    RedirectResult :=
  let urlData := (kvGet st (linkKey shortCode)).map (·.val)
  if jsTruthy urlData = false then .notFound st
  else
    match urlData with
    | some (.record d) =>
        if (match d.expiration with
            | some e => !(e == 0) && decide (now > e)
            | none => false) then
          .notFound (kvDel st (linkKey shortCode))
        else
          .redirected d.originalUrl st (logAnalytics cf shortCode d.urlId)
    | _ => .thrown st

/-! ### `GET /api/analytics/overview` (index.ts, lines 1067-1108)

```ts
app.get("/api/analytics/overview", async (c) => {
  try {
    const { keys } = await c.env.URL_SHORTENER.list({ prefix: "link:" });
    if (!keys.length) {
      return c.json({ success: true,
        overview: { totalClicks: 0, totalLinks: 0, avgClicksPerLink: 0 },
        recentLinks: [] });
    }
    const analyticsData = await fetchAnalyticsData(c);
    if (!analyticsData) { return c.json({ success:false, message:"Failed to fetch analytics data" }, 500); }
    const { totalClicks } = analyticsData;
    const totalLinks = keys.length;
    const avgClicksPerLink = totalLinks ? totalClicks / totalLinks : 0;
    return c.json({ success:true, data: { totalClicks, totalLinks,
      avgClicksPerLink: parseFloat(avgClicksPerLink.toFixed(1)) } });
  } catch (error) { ... 500 ... }
});
```

The function `fetchAnalyticsData` is imported from `utils.ts` but absent
from the sources; its outcome (the aggregate click count, or a failure) is
the opaque parameter `fetchResult`.  Only the
zero-links short-circuit — fully present in the handler source — is the
subject of a claim.  Response
bodies are compared as JSON objects (`OverviewBody`), so that the key
names the handler actually emits are part of the statement. -/

/-- One field of an overview response body: a boolean, number or string
leaf, a nested all-numeric object, or an empty array. -/
inductive JField where
  | fbool (b : Bool)
  | fnum (q : Rat)
  | fstr (s : String)
  | fobj (numFields : List (String × Rat))
  | femptyArr
  deriving DecidableEq

/-- A JSON object body, as an ordered list of key/field pairs. -/
abbrev OverviewBody := List (String × JField)

/-- Field lookup in a JSON object body. -/
def bodyLookup (body : OverviewBody) (k : String) : Option JField :=
  (body.find? (fun p => p.1 == k)).map (·.2)

/-- The names of the keys under the `link:` namespace (the `keys` returned
by `list({ prefix: "link:" })`). -/
def linkKeyNames (st : KVStore) : List String :=
  (st.map (·.1)).filter (fun k => "link:".data.isPrefixOf k.data)

/-- `Number.prototype.toFixed(1)` followed by `parseFloat`, over ℚ (exact
for the non-negative values that occur here). -/
def toFixed1 (q : Rat) : Rat := (round (q * 10) : Int) / 10

/-- The early body returned when no `link:` keys exist: note the keys
`overview` and `recentLinks` (not `data`). -/
def overviewZeroBody : OverviewBody :=
  [("success", .fbool true),
   ("overview", .fobj
      [("totalClicks", 0), ("totalLinks", 0), ("avgClicksPerLink", 0)]),
   ("recentLinks", .femptyArr)]

/-- Status, body and whether the analytics sink was queried, for one
`GET /api/analytics/overview`. -/
structure OverviewResult where
  status : Nat
  body : OverviewBody
  sinkQueried : Bool
  deriving DecidableEq

/-- The `GET /api/analytics/overview` handler. -/
def overviewHandler (st : KVStore) (fetchResult : Option Nat) : OverviewResult :=
  let keys := linkKeyNames st
  if keys.isEmpty then
    { status := 200, body := overviewZeroBody, sinkQueried := false }
  else
    match fetchResult with
    | none =>
        { status := 500,
          body := [("success", .fbool false),
                   ("message", .fstr "Failed to fetch analytics data")],
          sinkQueried := true }
    | some totalClicks =>
        let totalLinks := keys.length
        let avg : Rat :=
          if totalLinks ≠ 0 then (totalClicks : Rat) / (totalLinks : Rat) else 0
        { status := 200,
          body := [("success", .fbool true),
                   ("data", .fobj
                      [("totalClicks", (totalClicks : Rat)),
                       ("totalLinks", (totalLinks : Rat)),
                       ("avgClicksPerLink", toFixed1 avg)])],
          sinkQueried := true }

/-! ### Characterisation lemmas for the handlers -/

/-- The `KVData` the create handler stores on success, for resolved link
identity `uid` (the `expiration` field is set only when the request value
differs from the `-1` sentinel; `description` defaults to `""`). -/
def createdRecord (originalUrl : String) (expirationOpt : Option Int)
    (descriptionOpt : Option String) (uid : String) : KVData :=
  { originalUrl := originalUrl,
    expiration :=
      if expirationOpt.getD (-1) ≠ -1 then some (expirationOpt.getD (-1)) else none,
    description := some (descriptionOpt.getD ""),
    urlId := uid }

/-- The conflict response body of the create handler. -/
def conflictBody : ShortenResponse :=
  { shortUrl := none, originalUrl := none, success := some false,
    message := some "Short code already exists" }

theorem shorten_conflict_spec (st : KVStore) (url code : String)
    (expOpt : Option Int) (descOpt : Option String) (gen fresh lock origin : String)
    (hex : jsTruthy ((kvGet st (linkKey code)).map (·.val)) = true) :
    shorten st false url (some code) expOpt descOpt gen fresh lock origin =
      { status := 400, body := conflictBody,
        store := kvDel (kvPut st (lockKey url) { val := .str lock, ttl := some 60 })
                   (lockKey url) } := by
  have hlk : linkKey code ≠ lockKey url := Ne.symm (lockKey_ne_linkKey url code)
  simp [shorten, acquireLock, releaseLock, releaseLockF, conflictBody,
    kvGet_kvPut_other st (lockKey url) (linkKey code)
      { val := .str lock, ttl := some 60 } hlk,
    kvGet_kvPut_same, StoreValue.asString, hex]

/-- The success response body of the create handler. -/
def successBody (url shortCode origin : String) : ShortenResponse :=
  { shortUrl := some (origin ++ "/" ++ shortCode), originalUrl := some url,
    success := some true, message := none }

theorem shorten_reuse_spec (st : KVStore) (url code v : String) (tv : Option Nat)
    (expOpt : Option Int) (descOpt : Option String) (gen fresh lock origin : String)
    (hnc : jsTruthy ((kvGet st (linkKey code)).map (·.val)) = false)
    (hv : kvGet st (urlIdKey url) = some { val := .str v, ttl := tv })
    (hvne : v ≠ "") :
    shorten st false url (some code) expOpt descOpt gen fresh lock origin =
      { status := 201,
        body := successBody url code origin,
        store := kvDel
          (kvPut (kvPut st (lockKey url) { val := .str lock, ttl := some 60 })
            (linkKey code)
            { val := .record (createdRecord url expOpt descOpt v), ttl := none })
          (lockKey url) } := by
  have h1 : linkKey code ≠ lockKey url := Ne.symm (lockKey_ne_linkKey url code)
  have h2 : urlIdKey url ≠ lockKey url := Ne.symm (lockKey_ne_urlIdKey url url)
  have h3 : lockKey url ≠ linkKey code := lockKey_ne_linkKey url code
  simp only [jsTruthy] at hnc
  simp [shorten, acquireLock, releaseLock, releaseLockF, createdRecord, successBody,
    StoreValue.asString, jsTruthy, hnc, hv, hvne, h1, h2, h3,
    kvGet_kvPut_other, kvGet_kvPut_same]

theorem shorten_fresh_spec (st : KVStore) (url code : String)
    (expOpt : Option Int) (descOpt : Option String) (gen fresh lock origin : String)
    (hnc : jsTruthy ((kvGet st (linkKey code)).map (·.val)) = false)
    (hv : kvGet st (urlIdKey url) = none) :
    shorten st false url (some code) expOpt descOpt gen fresh lock origin =
      { status := 201,
        body := successBody url code origin,
        store := kvDel
          (kvPut
            (kvPut (kvPut st (lockKey url) { val := .str lock, ttl := some 60 })
              (urlIdKey url) { val := .str fresh, ttl := none })
            (linkKey code)
            { val := .record (createdRecord url expOpt descOpt fresh), ttl := none })
          (lockKey url) } := by
  have h1 : linkKey code ≠ lockKey url := Ne.symm (lockKey_ne_linkKey url code)
  have h2 : urlIdKey url ≠ lockKey url := Ne.symm (lockKey_ne_urlIdKey url url)
  have h3 : lockKey url ≠ linkKey code := lockKey_ne_linkKey url code
  have h4 : lockKey url ≠ urlIdKey url := lockKey_ne_urlIdKey url url
  simp only [jsTruthy] at hnc
  simp [shorten, acquireLock, releaseLock, releaseLockF, createdRecord, successBody,
    StoreValue.asString, jsTruthy, hnc, hv, h1, h2, h3, h4,
    kvGet_kvPut_other, kvGet_kvPut_same]

theorem redirect_missing_spec (st : KVStore) (code : String) (now : Int)
    (cf : Option CfProps) (hv : kvGet st (linkKey code) = none) :
    redirect st code now cf = .notFound st := by
  simp [redirect, jsTruthy, hv]

theorem redirect_expired_spec (st : KVStore) (code : String) (now : Int)
    (cf : Option CfProps) (d : KVData) (t : Option Nat) (e : Int)
    (hv : kvGet st (linkKey code) = some { val := .record d, ttl := t })
    (he : d.expiration = some e) (hne : e ≠ 0) (hgt : now > e) :
    redirect st code now cf = .notFound (kvDel st (linkKey code)) := by
  simp [redirect, jsTruthy, hv, he, hne, hgt]

theorem redirect_live_spec (st : KVStore) (code : String) (now : Int)
    (cf : Option CfProps) (d : KVData) (t : Option Nat)
    (hv : kvGet st (linkKey code) = some { val := .record d, ttl := t })
    (hcond : (match d.expiration with
              | some e => !(e == 0) && decide (now > e)
              | none => false) = false) :
    redirect st code now cf =
      .redirected d.originalUrl st
        [{ blobs := [d.urlId, code], indexes := [d.urlId] }] := by
  simp [redirect, jsTruthy, logAnalytics, hv, hcond]

/-! ## Claims -/

/-- C1: for every destination URL, the create handler reuses an existing
link identity and creates a new one only when none exists: (a) if a
(nonempty, as every stored identifier is a `nanoid`) value is stored at
`urlId:{originalUrl}`, the persisted `LinkRecord` carries that identifier
unchanged and the identity record is untouched; (b) if absent, the fresh
identifier is persisted at `urlId:{originalUrl}` and attached to the
record; (c) hence a subsequent create for the same exact URL string
reuses the identifier generated by the first create. -/
theorem claimC1_urlId_reuse (st : KVStore) (url code : String)
    (expOpt : Option Int) (descOpt : Option String)
    (gen fresh lock origin : String)
    (hnc : kvGet st (linkKey code) = none) :
    (∀ v tv, kvGet st (urlIdKey url) = some { val := StoreValue.str v, ttl := tv } →
      v ≠ "" →
      (shorten st false url (some code) expOpt descOpt gen fresh lock origin).status
          = 201 ∧
      kvGet (shorten st false url (some code) expOpt descOpt gen fresh lock
          origin).store (linkKey code)
          = some { val := .record (createdRecord url expOpt descOpt v), ttl := none } ∧
      kvGet (shorten st false url (some code) expOpt descOpt gen fresh lock
          origin).store (urlIdKey url)
          = some { val := StoreValue.str v, ttl := tv }) ∧
    (kvGet st (urlIdKey url) = none →
      (shorten st false url (some code) expOpt descOpt gen fresh lock origin).status
          = 201 ∧
      kvGet (shorten st false url (some code) expOpt descOpt gen fresh lock
          origin).store (linkKey code)
          = some { val := .record (createdRecord url expOpt descOpt fresh), ttl := none } ∧
      kvGet (shorten st false url (some code) expOpt descOpt gen fresh lock
          origin).store (urlIdKey url)
          = some { val := StoreValue.str fresh, ttl := none }) ∧
    (∀ code₂ expOpt₂ descOpt₂ gen₂ fresh₂ lock₂,
      kvGet st (urlIdKey url) = none → fresh ≠ "" →
      kvGet (shorten st false url (some code) expOpt descOpt gen fresh lock
          origin).store (linkKey code₂) = none →
      kvGet (shorten
          (shorten st false url (some code) expOpt descOpt gen fresh lock
            origin).store
          false url (some code₂) expOpt₂ descOpt₂ gen₂ fresh₂ lock₂ origin).store
          (linkKey code₂)
        = some { val := .record (createdRecord url expOpt₂ descOpt₂ fresh), ttl := none }) := by
  have hnc' : jsTruthy ((kvGet st (linkKey code)).map (·.val)) = false := by
    simp [hnc, jsTruthy]
  have h1 : linkKey code ≠ lockKey url := Ne.symm (lockKey_ne_linkKey url code)
  have h2 : urlIdKey url ≠ lockKey url := Ne.symm (lockKey_ne_urlIdKey url url)
  have h3 : urlIdKey url ≠ linkKey code := Ne.symm (linkKey_ne_urlIdKey code url)
  refine ⟨?_, ?_, ?_⟩
  · intro v tv hv hvne
    rw [shorten_reuse_spec st url code v tv expOpt descOpt gen fresh lock origin
      hnc' hv hvne]
    refine ⟨rfl, ?_, ?_⟩
    · rw [kvGet_kvDel_other _ _ _ h1, kvGet_kvPut_same]
    · rw [kvGet_kvDel_other _ _ _ h2, kvGet_kvPut_other _ _ _ _ h3,
        kvGet_kvPut_other _ _ _ _ h2, hv]
  · intro hv
    rw [shorten_fresh_spec st url code expOpt descOpt gen fresh lock origin hnc' hv]
    refine ⟨rfl, ?_, ?_⟩
    · rw [kvGet_kvDel_other _ _ _ h1, kvGet_kvPut_same]
    · rw [kvGet_kvDel_other _ _ _ h2, kvGet_kvPut_other _ _ _ _ h3,
        kvGet_kvPut_same]
  · intro code₂ expOpt₂ descOpt₂ gen₂ fresh₂ lock₂ hv hfresh hnc₂
    have hfirst := shorten_fresh_spec st url code expOpt descOpt gen fresh lock
      origin hnc' hv
    have hurl : kvGet (shorten st false url (some code) expOpt descOpt gen fresh
        lock origin).store (urlIdKey url)
        = some { val := StoreValue.str fresh, ttl := none } := by
      rw [hfirst]
      rw [kvGet_kvDel_other _ _ _ h2, kvGet_kvPut_other _ _ _ _ h3,
        kvGet_kvPut_same]
    have hnc₂' : jsTruthy ((kvGet (shorten st false url (some code) expOpt descOpt
        gen fresh lock origin).store (linkKey code₂)).map (·.val)) = false := by
      simp [hnc₂, jsTruthy]
    rw [shorten_reuse_spec _ url code₂ fresh none expOpt₂ descOpt₂ gen₂ fresh₂
      lock₂ origin hnc₂' hurl hfresh]
    have h1b : linkKey code₂ ≠ lockKey url := Ne.symm (lockKey_ne_linkKey url code₂)
    rw [kvGet_kvDel_other _ _ _ h1b, kvGet_kvPut_same]

/-- Witness for C1: on a store holding the identity `id0` for destination
`u`, creating code `c` returns 201, stores the record with `urlId = id0`,
and leaves the identity record unchanged. -/
theorem claimC1_urlId_reuse_witness :
    (shorten [(urlIdKey "u", { val := StoreValue.str "id0", ttl := none })] false
        "u" (some "c") none none "g" "f" "l" "o").status = 201 ∧
    kvGet (shorten [(urlIdKey "u", { val := StoreValue.str "id0", ttl := none })]
        false "u" (some "c") none none "g" "f" "l" "o").store (linkKey "c")
      = some { val := .record (createdRecord "u" none none "id0"), ttl := none } ∧
    kvGet (shorten [(urlIdKey "u", { val := StoreValue.str "id0", ttl := none })]
        false "u" (some "c") none none "g" "f" "l" "o").store (urlIdKey "u")
      = some { val := StoreValue.str "id0", ttl := none } :=
  (claimC1_urlId_reuse
      [(urlIdKey "u", { val := StoreValue.str "id0", ttl := none })]
      "u" "c" none none "g" "f" "l" "o" (by decide)).1
    "id0" none (by decide) (by decide)

/-- C2: a create request whose short code already has a stored record at
`link:{shortCode}` fails with HTTP 400 and body
`{success:false, message:"Short code already exists"}` (no retry with a
new code); with no such record it succeeds with 201.  Concretely,
submitting `{originalUrl:"https://example.com", shortCode:"abcd"}` twice
in a row yields 201 with a `shortUrl` ending in `/abcd`, then 400 with
that exact message. -/
theorem claimC2_conflict :
    (∀ st url code d t expOpt descOpt gen fresh lock origin,
      kvGet st (linkKey code) = some { val := StoreValue.record d, ttl := t } →
      (shorten st false url (some code) expOpt descOpt gen fresh lock origin).status
          = 400 ∧
      (shorten st false url (some code) expOpt descOpt gen fresh lock origin).body
          = conflictBody) ∧
    (∀ st url code expOpt descOpt gen fresh lock origin,
      kvGet st (linkKey code) = none →
      (shorten st false url (some code) expOpt descOpt gen fresh lock origin).status
          = 201) ∧
    ((shorten [] false "https://example.com" (some "abcd") none none "g1" "u1" "l1"
        "https://sho.rt").status = 201 ∧
      "/abcd".data <:+ ((shorten [] false "https://example.com" (some "abcd") none
        none "g1" "u1" "l1" "https://sho.rt").body.shortUrl.getD "").data ∧
      (shorten
          (shorten [] false "https://example.com" (some "abcd") none none "g1" "u1"
            "l1" "https://sho.rt").store
          false "https://example.com" (some "abcd") none none "g2" "u2" "l2"
          "https://sho.rt").status = 400 ∧
      (shorten
          (shorten [] false "https://example.com" (some "abcd") none none "g1" "u1"
            "l1" "https://sho.rt").store
          false "https://example.com" (some "abcd") none none "g2" "u2" "l2"
          "https://sho.rt").body = conflictBody) ∧
    (∀ st url codeOpt expOpt descOpt gen fresh lock origin,
      shorten st false url codeOpt expOpt descOpt gen fresh lock origin
        = shorten st false url (some (codeOpt.getD gen)) expOpt descOpt gen fresh
            lock origin) := by
  refine ⟨?_, ?_, ?_, ?_⟩
  · intro st url code d t expOpt descOpt gen fresh lock origin hex
    have hex' : jsTruthy ((kvGet st (linkKey code)).map (·.val)) = true := by
      simp [hex, jsTruthy]
    rw [shorten_conflict_spec st url code expOpt descOpt gen fresh lock origin hex']
    exact ⟨rfl, rfl⟩
  · intro st url code expOpt descOpt gen fresh lock origin hnone
    have h1 : linkKey code ≠ lockKey url := Ne.symm (lockKey_ne_linkKey url code)
    simp [shorten, acquireLock, jsTruthy,
      kvGet_kvPut_other st (lockKey url) (linkKey code)
        { val := .str lock, ttl := some 60 } h1, hnone]
  · refine ⟨by decide, by decide, by decide, by decide⟩
  · intro st url codeOpt expOpt descOpt gen fresh lock origin
    cases codeOpt <;> rfl

/-- Witness for C2: the conflict branch applied at a concrete store
holding a record for code `ab`. -/
theorem claimC2_conflict_witness :
    (shorten [(linkKey "ab",
        { val := StoreValue.record
            { originalUrl := "https://x.com", expiration := none,
              description := some "", urlId := "id1" }, ttl := none })] false
        "https://y.com" (some "ab") none none "g" "f" "l" "o").status = 400 ∧
    (shorten [(linkKey "ab",
        { val := StoreValue.record
            { originalUrl := "https://x.com", expiration := none,
              description := some "", urlId := "id1" }, ttl := none })] false
        "https://y.com" (some "ab") none none "g" "f" "l" "o").body = conflictBody :=
  claimC2_conflict.1
    [(linkKey "ab",
        { val := StoreValue.record
            { originalUrl := "https://x.com", expiration := none,
              description := some "", urlId := "id1" }, ttl := none })]
    "https://y.com" "ab"
    { originalUrl := "https://x.com", expiration := none,
      description := some "", urlId := "id1" }
    none none none "g" "f" "l" "o" (by decide)

/-- C3: a stored link record whose (positive) expiration timestamp has
passed at read time is deleted by `GET /:shortCode` and reported 404; a
creation with an expiration already in the past is still stored, the very
next read deletes it and reports 404, and every subsequent read stays
404. -/
theorem claimC3_lazy_expiry :
    (∀ st code now cf d t e,
      kvGet st (linkKey code) = some { val := StoreValue.record d, ttl := t } →
      d.expiration = some e → 0 < e → e < now →
      redirect st code now cf = .notFound (kvDel st (linkKey code))) ∧
    (∀ st url code exp desc gen fresh lock origin now now₂ cf,
      kvGet st (linkKey code) = none →
      kvGet st (urlIdKey url) = none →
      0 < exp → exp < now →
      (shorten st false url (some code) (some exp) (some desc) gen fresh lock
          origin).status = 201 ∧
      kvGet (shorten st false url (some code) (some exp) (some desc) gen fresh lock
          origin).store (linkKey code)
        = some { val := .record (createdRecord url (some exp) (some desc) fresh),
                 ttl := none } ∧
      redirect (shorten st false url (some code) (some exp) (some desc) gen fresh
          lock origin).store code now cf
        = .notFound (kvDel (shorten st false url (some code) (some exp) (some desc)
            gen fresh lock origin).store (linkKey code)) ∧
      redirect (kvDel (shorten st false url (some code) (some exp) (some desc) gen
          fresh lock origin).store (linkKey code)) code now₂ cf
        = .notFound (kvDel (shorten st false url (some code) (some exp) (some desc)
            gen fresh lock origin).store (linkKey code))) := by
  constructor
  · intro st code now cf d t e hv he hpos hlt
    exact redirect_expired_spec st code now cf d t e hv he
      (by omega) (by omega)
  · intro st url code exp desc gen fresh lock origin now now₂ cf hnc hu hpos hlt
    have hnc' : jsTruthy ((kvGet st (linkKey code)).map (·.val)) = false := by
      simp [hnc, jsTruthy]
    have hfst := shorten_fresh_spec st url code (some exp) (some desc) gen fresh
      lock origin hnc' hu
    have h1 : linkKey code ≠ lockKey url := Ne.symm (lockKey_ne_linkKey url code)
    have hexpne : exp ≠ -1 := by omega
    have hstored : kvGet (shorten st false url (some code) (some exp) (some desc)
        gen fresh lock origin).store (linkKey code)
        = some { val := .record (createdRecord url (some exp) (some desc) fresh),
                 ttl := none } := by
      rw [hfst]
      rw [kvGet_kvDel_other _ _ _ h1, kvGet_kvPut_same]
    refine ⟨by rw [hfst], hstored, ?_, ?_⟩
    · exact redirect_expired_spec _ code now cf _ none exp hstored
        (by simp [createdRecord, hexpne]) (by omega) (by omega)
    · exact redirect_missing_spec _ code now₂ cf (kvGet_kvDel_same _ _)

/-- Witness for C3: creating code `c` for destination `u` with the past
expiration 5 at times 10 and 11. -/
theorem claimC3_lazy_expiry_witness :
    (shorten [] false "u" (some "c") (some 5) (some "") "g" "f" "l" "o").status
        = 201 ∧
    kvGet (shorten [] false "u" (some "c") (some 5) (some "") "g" "f" "l"
        "o").store (linkKey "c")
      = some { val := .record (createdRecord "u" (some 5) (some "") "f"),
               ttl := none } ∧
    redirect (shorten [] false "u" (some "c") (some 5) (some "") "g" "f" "l"
        "o").store "c" 10 none
      = .notFound (kvDel (shorten [] false "u" (some "c") (some 5) (some "") "g"
          "f" "l" "o").store (linkKey "c")) ∧
    redirect (kvDel (shorten [] false "u" (some "c") (some 5) (some "") "g" "f"
        "l" "o").store (linkKey "c")) "c" 11 none
      = .notFound (kvDel (shorten [] false "u" (some "c") (some 5) (some "") "g"
          "f" "l" "o").store (linkKey "c")) :=
  claimC3_lazy_expiry.2 [] "u" "c" 5 "" "g" "f" "l" "o" 10 11 none
    (by decide) (by decide) (by decide) (by decide)

/-- Modelled from the spec: the store-level TTL claim C4 asserts for the
`link:{shortCode}` key — the remaining time from `now` until the requested
expiration, and no TTL for the `-1` sentinel. -/
def specClaimedLinkTTL (expiration now : Int) : Option Int :=
  if expiration = -1 then none else some (expiration - now)

/-- Counterexample to C4: creating `abcd` with the future expiration 1000
(read at `now = 0`, so the claimed remaining time is 1000) stores the link
record with NO store-level TTL — the handler's `put` for `link:{shortCode}`
passes no `expirationTtl` at all — so the key's TTL is not the remaining
time the claim requires. -/
theorem claimC4_ttl_counterexample :
    (kvGet (shorten [] false "https://e.com" (some "abcd") (some 1000) none "g"
        "uid" "l" "o").store (linkKey "abcd")).map (fun en => en.ttl)
      = some none ∧
    ¬ ((kvGet (shorten [] false "https://e.com" (some "abcd") (some 1000) none "g"
        "uid" "l" "o").store (linkKey "abcd")).map (fun en => en.ttl.map Int.ofNat)
      = some (specClaimedLinkTTL 1000 0)) := by
  constructor
  · decide
  · decide

/-- C4 (amended): on successful create the record persisted at
`link:{shortCode}` carries the resolved `linkId`, but the key is stored
with no store-level TTL at all, whatever the requested expiration —
expiry is enforced only lazily at read time (so in particular the `-1`
sentinel also yields no TTL). -/
theorem claimC4_no_ttl (st : KVStore) (url code : String)
    (expOpt : Option Int) (descOpt : Option String)
    (gen fresh lock origin : String)
    (hnc : kvGet st (linkKey code) = none) :
    (∀ v tv, kvGet st (urlIdKey url) = some { val := StoreValue.str v, ttl := tv } →
      v ≠ "" →
      kvGet (shorten st false url (some code) expOpt descOpt gen fresh lock
          origin).store (linkKey code)
        = some { val := .record (createdRecord url expOpt descOpt v), ttl := none }) ∧
    (kvGet st (urlIdKey url) = none →
      kvGet (shorten st false url (some code) expOpt descOpt gen fresh lock
          origin).store (linkKey code)
        = some { val := .record (createdRecord url expOpt descOpt fresh),
                 ttl := none }) := by
  have hnc' : jsTruthy ((kvGet st (linkKey code)).map (·.val)) = false := by
    simp [hnc, jsTruthy]
  have h1 : linkKey code ≠ lockKey url := Ne.symm (lockKey_ne_linkKey url code)
  constructor
  · intro v tv hv hvne
    rw [shorten_reuse_spec st url code v tv expOpt descOpt gen fresh lock origin
      hnc' hv hvne]
    rw [kvGet_kvDel_other _ _ _ h1, kvGet_kvPut_same]
  · intro hv
    rw [shorten_fresh_spec st url code expOpt descOpt gen fresh lock origin hnc' hv]
    rw [kvGet_kvDel_other _ _ _ h1, kvGet_kvPut_same]

/-- Witness for C4 (amended): creating `c` with expiration 1000 on the
empty store persists the record with the fresh identity and no TTL. -/
theorem claimC4_no_ttl_witness :
    kvGet (shorten [] false "u" (some "c") (some 1000) none "g" "f" "l"
        "o").store (linkKey "c")
      = some { val := .record (createdRecord "u" (some 1000) none "f"),
               ttl := none } :=
  (claimC4_no_ttl [] "u" "c" (some 1000) none "g" "f" "l" "o" (by decide)).2
    (by decide)

/-- C5: `releaseLock` reads the value stored at `lock:{url}` and deletes
the key only when it equals the caller's token; on a mismatch or an absent
key the store is unchanged; and any error raised during release is
swallowed — with an injected `get` failure the store is untouched, and
under every failure schedule the function still returns a store (the
`catch` never rethrows), which is at most the original store with the lock
key removed. -/
theorem claimC5_release_ownership (st : KVStore) (url tok : String) :
    (∀ e, kvGet st (lockKey url) = some e → e.val.asString = tok →
      releaseLock st url tok = kvDel st (lockKey url)) ∧
    (∀ e, kvGet st (lockKey url) = some e → e.val.asString ≠ tok →
      releaseLock st url tok = st) ∧
    (kvGet st (lockKey url) = none → releaseLock st url tok = st) ∧
    (∀ df, releaseLockF st true df url tok = st) ∧
    (∀ gf df, releaseLockF st gf df url tok = st ∨
      releaseLockF st gf df url tok = kvDel st (lockKey url)) := by
  refine ⟨?_, ?_, ?_, ?_, ?_⟩
  · intro e he htok
    simp [releaseLock, releaseLockF, he, htok]
  · intro e he htok
    simp [releaseLock, releaseLockF, he, htok]
  · intro he
    simp [releaseLock, releaseLockF, he]
  · intro df
    simp [releaseLockF]
  · intro gf df
    cases gf with
    | true => exact Or.inl (by simp [releaseLockF])
    | false =>
        cases he : kvGet st (lockKey url) with
        | none => exact Or.inl (by simp [releaseLockF, he])
        | some e =>
            by_cases htok : e.val.asString = tok
            · cases df with
              | true => exact Or.inl (by simp [releaseLockF, he, htok])
              | false => exact Or.inr (by simp [releaseLockF, he, htok])
            · exact Or.inl (by simp [releaseLockF, he, htok])

/-- Witness for C5: a store holding the caller's own token at `lock:u` is
released to the store with the key deleted. -/
theorem claimC5_release_ownership_witness :
    releaseLock [(lockKey "u", { val := StoreValue.str "tok1", ttl := some 60 })]
        "u" "tok1"
      = kvDel [(lockKey "u", { val := StoreValue.str "tok1", ttl := some 60 })]
          (lockKey "u") :=
  (claimC5_release_ownership
      [(lockKey "u", { val := StoreValue.str "tok1", ttl := some 60 })]
      "u" "tok1").1
    { val := StoreValue.str "tok1", ttl := some 60 } (by decide) (by decide)

/-- Modelled from the spec: the response body claim C6 asserts for the
zero-links case — `{success:true, data:{totalClicks:0, totalLinks:0,
avgClicksPerLink:0}}`, the zero statistics under a key named `data`. -/
def specOverviewZeroBody : OverviewBody :=
  [("success", .fbool true),
   ("data", .fobj
      [("totalClicks", 0), ("totalLinks", 0), ("avgClicksPerLink", 0)])]

/-- Counterexample to C6: with zero link records the handler does answer
200 without querying the sink, but its body carries the zero statistics
under the key `overview` (plus a `recentLinks` key) and has no `data`
field at all, so the body is not the `{success, data}` object the claim
states. -/
theorem claimC6_zero_overview_counterexample :
    overviewHandler [] none
      = { status := 200, body := overviewZeroBody, sinkQueried := false } ∧
    bodyLookup (overviewHandler [] none).body "data" = none ∧
    bodyLookup (overviewHandler [] none).body "overview"
      = some (.fobj [("totalClicks", 0), ("totalLinks", 0), ("avgClicksPerLink", 0)]) ∧
    (overviewHandler [] none).body ≠ specOverviewZeroBody := by
  refine ⟨by decide, by decide, by decide, by decide⟩

/-- C6 (amended): when zero live link records exist (no keys under the
`link:` namespace), `GET /api/analytics/overview` returns 200 with body
`{success:true, overview:{totalClicks:0, totalLinks:0, avgClicksPerLink:0},
recentLinks:[]}` — the zero statistics under the key `overview`, not
`data` — without issuing any aggregate query to the analytics sink. -/
theorem claimC6_zero_overview (st : KVStore) (fetchResult : Option Nat)
    (hz : linkKeyNames st = []) :
    overviewHandler st fetchResult
      = { status := 200, body := overviewZeroBody, sinkQueried := false } := by
  simp [overviewHandler, hz]

/-- Witness for C6 (amended): a store holding only non-link keys has zero
link records, and the handler short-circuits on it. -/
theorem claimC6_zero_overview_witness :
    overviewHandler [(urlIdKey "u", { val := StoreValue.str "id0", ttl := none })]
        (some 7)
      = { status := 200, body := overviewZeroBody, sinkQueried := false } :=
  claimC6_zero_overview
    [(urlIdKey "u", { val := StoreValue.str "id0", ttl := none })]
    (some 7) (by decide)

/-- Counterexample to C7: a successful redirect whose request context
carries no geographic/contextual properties (`cf = none`) still emits a
click event — `logAnalytics` writes its data point unconditionally, so the
list of emitted events is not empty as the claim requires. -/
theorem claimC7_skip_emission_counterexample :
    redirect
        [(linkKey "ab",
          { val := StoreValue.record
              { originalUrl := "https://x.com", expiration := none,
                description := some "", urlId := "uid7" }, ttl := none })]
        "ab" 100 none
      = .redirected "https://x.com"
          [(linkKey "ab",
            { val := StoreValue.record
                { originalUrl := "https://x.com", expiration := none,
                  description := some "", urlId := "uid7" }, ttl := none })]
          [{ blobs := ["uid7", "ab"], indexes := ["uid7"] }] ∧
    logAnalytics none "ab" "uid7" ≠ ([] : List DataPoint) := by
  refine ⟨by decide, by decide⟩

/-- C7 (amended): on every successful redirect exactly one click event is
emitted, with blobs `[urlId, shortCode]` and index `[urlId]` and no
geographic fields, whatever the request context — `logAnalytics` never
reads the context and never skips the emission. -/
theorem claimC7_unconditional_emission (st : KVStore) (code : String) (now : Int)
    (cf : Option CfProps) (d : KVData) (t : Option Nat)
    (hv : kvGet st (linkKey code) = some { val := StoreValue.record d, ttl := t })
    (hlive : (match d.expiration with
              | some e => !(e == 0) && decide (now > e)
              | none => false) = false) :
    redirect st code now cf
      = .redirected d.originalUrl st
          [{ blobs := [d.urlId, code], indexes := [d.urlId] }] ∧
    ∀ cf' sc uid, logAnalytics cf' sc uid
      = [{ blobs := [uid, sc], indexes := [uid] }] := by
  exact ⟨redirect_live_spec st code now cf d t hv hlive,
    fun cf' sc uid => rfl⟩

/-- Witness for C7 (amended): the live record for `ab`, read with no
geolocation data in the context, emits its single event. -/
theorem claimC7_unconditional_emission_witness :
    redirect
        [(linkKey "ab",
          { val := StoreValue.record
              { originalUrl := "https://x.com", expiration := none,
                description := some "", urlId := "uid7" }, ttl := none })]
        "ab" 100 none
      = .redirected "https://x.com"
          [(linkKey "ab",
            { val := StoreValue.record
                { originalUrl := "https://x.com", expiration := none,
                  description := some "", urlId := "uid7" }, ttl := none })]
          [{ blobs := ["uid7", "ab"], indexes := ["uid7"] }] :=
  (claimC7_unconditional_emission
      [(linkKey "ab",
        { val := StoreValue.record
            { originalUrl := "https://x.com", expiration := none,
              description := some "", urlId := "uid7" }, ttl := none })]
      "ab" 100 none
      { originalUrl := "https://x.com", expiration := none,
        description := some "", urlId := "uid7" } none
      (by decide) (by decide)).1

/-- Counterexample to C8: under a uniform random byte, the output
characters of `generateShortCode` are NOT uniform over the 57-character
alphabet.  `characters.charAt(byte % 57)` with a byte in `[0, 256)` maps
5 of the 256 byte values to `'A'` (alphabet index 0) but only 4 of them to
`'9'` (alphabet index 56), because 57 does not divide 256 — the classic
modulo bias (5/256 versus 4/256 per character). -/
theorem claimC8_uniformity_counterexample :
    ((List.range 256).countP (fun b => codeCharOfByte b = 'A')) = 5 ∧
    ((List.range 256).countP (fun b => codeCharOfByte b = '9')) = 4 ∧
    ((List.range 256).countP (fun b => codeCharOfByte b = 'A'))
      ≠ ((List.range 256).countP (fun b => codeCharOfByte b = '9')) := by
  refine ⟨by decide, by decide, by decide⟩

/-- C8 (amended): with the default length, `generateShortCode` returns a
string of exactly 4 characters, each drawn from the 57-character
unambiguous alphabet; position `i` of the output depends only on random
byte `i` (so characters are independent for independent bytes), each
character being `characters.charAt(byte % 57)` — a near-uniform but
modulo-biased choice: 5 of 256 byte values for each of the first 28
alphabet characters, 4 of 256 for each of the remaining 29, exemplified by
the counts for `'A'` and `'9'`. -/
theorem claimC8_generation (bs : List Nat) (hlen : bs.length = 4) :
    (generateShortCode bs).length = 4 ∧
    (∀ c, c ∈ (generateShortCode bs).data → c ∈ shortCodeChars) ∧
    shortCodeChars.length = 57 ∧
    (∀ i, i < bs.length →
      (generateShortCode bs).data.getD i ' ' = codeCharOfByte (bs.getD i 0)) ∧
    ((List.range 256).countP (fun b => codeCharOfByte b = 'A')) = 5 ∧
    ((List.range 256).countP (fun b => codeCharOfByte b = '9')) = 4 := by
  refine ⟨?_, ?_, by decide, ?_, by decide, by decide⟩
  · simp [generateShortCode, String.length, hlen]
  · intro c hc
    simp only [generateShortCode, List.mem_map] at hc
    obtain ⟨b, _, hb⟩ := hc
    subst hb
    have h : b % shortCodeChars.length < shortCodeChars.length :=
      Nat.mod_lt _ (by decide)
    rw [codeCharOfByte, List.getD_eq_getElem?_getD, List.getElem?_eq_getElem h]
    simp
  · intro i hi
    simp only [generateShortCode]
    rw [List.getD_eq_getElem?_getD, List.getD_eq_getElem?_getD]
    rw [List.getElem?_map, List.getElem?_eq_getElem hi]
    simp

/-- Witness for C8 (amended): the four zero bytes produce `"AAAA"`. -/
theorem claimC8_generation_witness :
    (generateShortCode [0, 0, 0, 0]).length = 4 ∧
    (generateShortCode [0, 0, 0, 0]).data.getD 0 ' '
      = codeCharOfByte ([0, 0, 0, 0].getD 0 0) := by
  have h := claimC8_generation [0, 0, 0, 0] (by decide)
  exact ⟨h.1, h.2.2.2.1 0 (by decide)⟩

/-- C9: a stored link record whose `expiration` field is falsy (`0`, or
absent) is never treated as expired by `GET /:shortCode`: for every
current time the read redirects to the destination and deletes nothing,
because the expiry branch is guarded by the truthiness of `expiration`. -/
theorem claimC9_falsy_expiration (st : KVStore) (code : String) (now : Int)
    (cf : Option CfProps) (d : KVData) (t : Option Nat)
    (hv : kvGet st (linkKey code) = some { val := StoreValue.record d, ttl := t })
    (hfalsy : d.expiration = some 0 ∨ d.expiration = none) :
    redirect st code now cf
      = .redirected d.originalUrl st
          [{ blobs := [d.urlId, code], indexes := [d.urlId] }] := by
  refine redirect_live_spec st code now cf d t hv ?_
  rcases hfalsy with h | h <;> simp [h]

/-- Witness for C9: a record with `expiration = 0` read far in the future
still redirects and leaves the store unchanged. -/
theorem claimC9_falsy_expiration_witness :
    redirect
        [(linkKey "zz",
          { val := StoreValue.record
              { originalUrl := "https://z.com", expiration := some 0,
                description := some "", urlId := "uid9" }, ttl := none })]
        "zz" 999999999 none
      = .redirected "https://z.com"
          [(linkKey "zz",
            { val := StoreValue.record
                { originalUrl := "https://z.com", expiration := some 0,
                  description := some "", urlId := "uid9" }, ttl := none })]
          [{ blobs := ["uid9", "zz"], indexes := ["uid9"] }] :=
  claimC9_falsy_expiration
    [(linkKey "zz",
      { val := StoreValue.record
          { originalUrl := "https://z.com", expiration := some 0,
            description := some "", urlId := "uid9" }, ttl := none })]
    "zz" 999999999 none
    { originalUrl := "https://z.com", expiration := some 0,
      description := some "", urlId := "uid9" } none
    (by decide) (Or.inl rfl)

/-- C10: when create fails with Conflict, the store is unchanged apart
from the advisory lock key: the response is 400, every key other than
`lock:{originalUrl}` (in particular every `link:` and `urlId:` key) holds
exactly what it held before, and the lock key itself is released. -/
theorem claimC10_conflict_no_write (st : KVStore) (url code : String)
    (d : KVData) (t : Option Nat) (expOpt : Option Int) (descOpt : Option String)
    (gen fresh lock origin : String)
    (hex : kvGet st (linkKey code) = some { val := StoreValue.record d, ttl := t }) :
    (shorten st false url (some code) expOpt descOpt gen fresh lock origin).status
        = 400 ∧
    kvGet (shorten st false url (some code) expOpt descOpt gen fresh lock
        origin).store (lockKey url) = none ∧
    ∀ k, k ≠ lockKey url →
      kvGet (shorten st false url (some code) expOpt descOpt gen fresh lock
          origin).store k = kvGet st k := by
  have hex' : jsTruthy ((kvGet st (linkKey code)).map (·.val)) = true := by
    simp [hex, jsTruthy]
  rw [shorten_conflict_spec st url code expOpt descOpt gen fresh lock origin hex']
  refine ⟨rfl, kvGet_kvDel_same _ _, ?_⟩
  intro k hk
  rw [kvGet_kvDel_other _ _ _ hk, kvGet_kvPut_other _ _ _ _ hk]

/-- Witness for C10: the conflicting create for code `ab` answers 400 and
leaves the `link:` and `urlId:` keys exactly as they were. -/
theorem claimC10_conflict_no_write_witness :
    (shorten [(linkKey "ab",
        { val := StoreValue.record
            { originalUrl := "https://x.com", expiration := none,
              description := some "", urlId := "id1" }, ttl := none })] false
        "https://y.com" (some "ab") none none "g" "f" "l" "o").status = 400 ∧
    kvGet (shorten [(linkKey "ab",
        { val := StoreValue.record
            { originalUrl := "https://x.com", expiration := none,
              description := some "", urlId := "id1" }, ttl := none })] false
        "https://y.com" (some "ab") none none "g" "f" "l" "o").store (linkKey "ab")
      = kvGet [(linkKey "ab",
          { val := StoreValue.record
              { originalUrl := "https://x.com", expiration := none,
                description := some "", urlId := "id1" }, ttl := none })]
          (linkKey "ab") := by
  have h := claimC10_conflict_no_write
    [(linkKey "ab",
      { val := StoreValue.record
          { originalUrl := "https://x.com", expiration := none,
            description := some "", urlId := "id1" }, ttl := none })]
    "https://y.com" "ab"
    { originalUrl := "https://x.com", expiration := none,
      description := some "", urlId := "id1" }
    none none none "g" "f" "l" "o" (by decide)
  exact ⟨h.1, h.2.2 (linkKey "ab") (Ne.symm (lockKey_ne_linkKey "https://y.com" "ab"))⟩
